import Mathlib

/-!
Verification development for the `pkg/operator` core of the
cluster-ingress-operator repository (file `pkg/operator/operator.go`).

The Go code is shallowly embedded as pure Lean functions.  External
collaborators (the kube client, the controller-runtime manager, caches,
the manifest factory, the discovery REST mapper) are modelled by oracle
environments: each fallible external call is represented by its outcome
(an optional error), supplied as an input, while everything the file
itself does — control flow, error wrapping, iteration order, the events
it triggers — is translated statement by statement from the source.
Stateful behaviour (the package-global `scheme`, the remote store, the
sequence of external calls made by `Start`) is made explicit by state
passing and by an event trace.
-/

/-- Model of a Go `error` value as used by this file: the rendered
message text together with whether `k8s.io/apimachinery/pkg/api/errors.IsAlreadyExists`
holds of it.  `fmt.Errorf` produces a plain error, for which
`IsAlreadyExists` is false. -/
structure GoError where
  msg : String
  isAlreadyExists : Bool
deriving DecidableEq

/-- `fmt.Errorf("<p>: %v", e)`: wraps an error with a context prefix;
the result is a plain error (never `AlreadyExists`). -/
def errorf (p : String) (e : GoError) : GoError :=
  { msg := p ++ ": " ++ e.msg, isAlreadyExists := false }

/-- `fmt.Errorf("<m>")` with no verb: a constant error message that does
not mention any underlying cause. -/
def errorfConst (m : String) : GoError :=
  { msg := m, isAlreadyExists := false }

/-- Is `sub` a prefix of the character list? -/
def charsPrefix : List Char → List Char → Bool
  | [], _ => true
  | _ :: _, [] => false
  | a :: as, b :: bs => a == b && charsPrefix as bs

/-- Does the character list contain `sub` as a contiguous run? -/
def charsContains (sub : List Char) : List Char → Bool
  | [] => charsPrefix sub []
  | c :: rest => charsPrefix sub (c :: rest) || charsContains sub rest

/-- Does string `s` contain `sub` as a substring?  Used to state the
spec's requirement that wrapped error messages contain the causing
error's text. -/
def strContains (s sub : String) : Bool :=
  charsContains sub.data s.data

/-- The API groups registered on the package-global `scheme` by `init`:
`kscheme.Scheme` (the base), `apis.AddToScheme`, `configv1.Install`. -/
inductive ApiGroupRegistration where
  | kubernetesScheme
  | ingressOperatorApis
  | openshiftConfigV1
deriving DecidableEq

/-- The type registry: the list of registrations performed on the
package-global `scheme` variable, in order. -/
abbrev Scheme := List ApiGroupRegistration

/-- The package `init` function: starts from `kscheme.Scheme`, then
`apis.AddToScheme(scheme)`, then `configv1.Install(scheme)`; `panic(err)`
on either failure is modelled as `Except.error`.  The two oracle inputs
are the outcomes of the two external registration calls. -/
def initScheme (addToSchemeErr installErr : Option GoError) : Except GoError Scheme :=
  let s0 := [ApiGroupRegistration.kubernetesScheme]
  match addToSchemeErr with
  | some e => Except.error e
  | none =>
    let s1 := s0 ++ [ApiGroupRegistration.ingressOperatorApis]
    match installErr with
    | some e => Except.error e
    | none => Except.ok (s1 ++ [ApiGroupRegistration.openshiftConfigV1])

/-- A ClusterIngress object as far as this file observes it: the
`Namespace`/`Name` logged after a successful create. -/
structure ClusterIngress where
  ns : String
  name : String
deriving DecidableEq

/-- One entry of `Operator.caches`: a `cache.Cache` scoped to a single
namespace (the code builds exactly one, for "openshift-ingress"). -/
structure CacheModel where
  namespaceScope : String
deriving DecidableEq

/-- The two object kinds for which `New` registers informer-based
watches on the operator controller. -/
inductive WatchKind where
  | deployment
  | service
deriving DecidableEq

/-- The `Operator` struct, restricted to what the embedded code
observes: the ordered caches list and the watches that `New` registered
on the operator controller. -/
structure Operator where
  caches : List CacheModel
  watches : List WatchKind
deriving DecidableEq

/-- Oracle for the external calls made by `Client`: the outcome of
`managerOptions.MapperProvider(kubeConfig)` (i.e.
`apiutil.NewDiscoveryRESTMapper`) and of `client.New`. -/
structure ClientEnv where
  discoveryErr : Option GoError
  clientNewErr : Option GoError
deriving DecidableEq

/-- `Client(kubeConfig)`: resolves the discovery REST mapper, then
builds the client.  On mapper failure the code returns the constant
message `failed to get API Group-Resources` (the underlying error is
dropped); on `client.New` failure it wraps with
`failed to create kube client: %v`.  The scheme is read (passed into
the options) and returned unchanged. -/
def Client (s : Scheme) (env : ClientEnv) : Except GoError Unit × Scheme :=
  match env.discoveryErr with
  | some _ => (Except.error (errorfConst ("failed to get API Group-Resources")), s)
  | none =>
    match env.clientNewErr with
    | some e => (Except.error (errorf ("failed to create kube client") e), s)
    | none => (Except.ok (), s)

/-- Oracle for the external calls made by `New`, in the order the code
makes them: `Client`, `manager.New`, `operatorcontroller.New`,
`apiutil.NewDiscoveryRESTMapper`, `cache.New`, and
`ingressCache.GetInformer` per watched kind. -/
structure NewEnv where
  clientEnv : ClientEnv
  managerNewErr : Option GoError
  controllerNewErr : Option GoError
  mapperErr : Option GoError
  cacheNewErr : Option GoError
  informerErr : WatchKind → Option GoError

/-- Display name of the watched object used in the
`failed to create informer for %v: %v` message. -/
def watchKindName : WatchKind → String
  | WatchKind.deployment => "Deployment"
  | WatchKind.service => "Service"

/-- The `for _, obj := range []runtime.Object{&appsv1.Deployment{}, &corev1.Service{}}`
loop of `New`: get an informer for each kind and register a watch on the
operator controller; the first informer failure aborts with a wrapped
error. -/
def registerWatches (informerErr : WatchKind → Option GoError) :
    List WatchKind → Except GoError (List WatchKind)
  | [] => Except.ok []
  | k :: rest =>
    match informerErr k with
    | some e => Except.error (errorf ("failed to create informer for " ++ watchKindName k) e)
    | none =>
      match registerWatches informerErr rest with
      | Except.error e => Except.error e
      | Except.ok ws => Except.ok (k :: ws)

/-- `New(config, installConfig, dnsManager, kubeConfig)`: builds the kube
client, the operator manager, the operator controller, the discovery
mapper, the "openshift-ingress" cache, and the two informer watches;
each failure returns `(nil, wrapped error)`.  On success the returned
`Operator` holds the single ingress cache.  The scheme is read (passed
into manager, cache and client options) and returned unchanged. -/
def New (s : Scheme) (env : NewEnv) : Except GoError Operator × Scheme :=
  match (Client s env.clientEnv).1 with
  | Except.error e => (Except.error (errorf ("could\x27t create kube client") e), s)
  | Except.ok _ =>
    match env.managerNewErr with
    | some e => (Except.error (errorf ("failed to create operator manager") e), s)
    | none =>
      match env.controllerNewErr with
      | some e => (Except.error (errorf ("failed to create operator controller") e), s)
      | none =>
        match env.mapperErr with
        | some _ => (Except.error (errorfConst ("failed to get API Group-Resources")), s)
        | none =>
          match env.cacheNewErr with
          | some e => (Except.error (errorf ("failed to create openshift-ingress cache") e), s)
          | none =>
            match registerWatches env.informerErr [WatchKind.deployment, WatchKind.service] with
            | Except.error e => (Except.error e, s)
            | Except.ok ws =>
              (Except.ok { caches := [{ namespaceScope := "openshift-ingress" }],
                           watches := ws }, s)

/-- The remote store, restricted to the one key this file writes: does
an object with the default ClusterIngress's namespace+name exist?
(The store keys objects by namespace+name, so at most one such object
can exist.) -/
structure Store where
  hasDefault : Bool
deriving DecidableEq

/-- How many default objects the store holds. -/
def countDefault (s : Store) : Nat :=
  if s.hasDefault then 1 else 0

/-- `client.Create` against the remote store for the default object:
create-if-absent.  If the object exists the store is unchanged and an
`AlreadyExists` error is reported; otherwise the object is inserted. -/
def storeCreate (s : Store) : Store × Option GoError :=
  if s.hasDefault then
    (s, some { msg := "already exists", isAlreadyExists := true })
  else
    ({ hasDefault := true }, none)

/-- Lines 161–166 of `ensureDefaultClusterIngress`: given the outcome of
`o.client.Create`, return the error unless it is nil or
`errors.IsAlreadyExists` holds of it. -/
def ensureCreateOutcome (err : Option GoError) : Option GoError :=
  match err with
  | some e => if e.isAlreadyExists then none else some e
  | none => none

/-- `ensureDefaultClusterIngress`, run against the remote store model:
obtain the default ClusterIngress from the manifest factory (oracle
`manifestResult`), then `Create` it, swallowing `AlreadyExists`. -/
def ensureDefaultClusterIngress (manifestResult : Except GoError ClusterIngress)
    (s : Store) : Store × Option GoError :=
  match manifestResult with
  | Except.error e => (s, some e)
  | Except.ok _ =>
    let r := storeCreate s
    (r.1, ensureCreateOutcome r.2)

/-- The externally observable calls `Operator.Start` makes, in order:
the `Create` of the default ClusterIngress (and, for stating frame
properties, the `Update`/`Delete` calls the code never makes),
`cache.Start` and `cache.WaitForCacheSync` on the i-th cache, and
`manager.Start`. -/
inductive Event where
  | createDefault
  | updateDefault
  | deleteDefault
  | cacheStart (i : Nat)
  | cacheWait (i : Nat)
  | managerStart
deriving DecidableEq

/-- Oracle for the external calls made by `Operator.Start`:
the manifest factory's result, the outcome of the `Create` call,
what `WaitForCacheSync` returns for the i-th cache, and the result of
`manager.Start`.  (`cache.Start` runs in a goroutine whose error is only
logged, so no oracle is needed for it.) -/
structure StartEnv where
  manifestResult : Except GoError ClusterIngress
  createErr : Option GoError
  syncResult : Nat → Bool
  managerStartErr : Option GoError

/-- `ensureDefaultClusterIngress` as invoked from `Start`, with the
`Create` outcome supplied by the oracle and the calls it makes recorded:
no `Create` is issued when the manifest factory fails. -/
def ensureTrace (env : StartEnv) : List Event × Option GoError :=
  match env.manifestResult with
  | Except.error e => ([], some e)
  | Except.ok _ => ([Event.createDefault], ensureCreateOutcome env.createErr)

/-- The `for _, cache := range o.caches` loop of `Start`, beginning at
position `i`: start the cache in a goroutine, then block on
`WaitForCacheSync`; if sync fails, return `failed to sync cache`
immediately, never touching the remaining caches. -/
def startCaches (syncResult : Nat → Bool) : Nat → List CacheModel → List Event × Option GoError
  | _, [] => ([], none)
  | i, _ :: rest =>
    if syncResult i then
      let r := startCaches syncResult (i + 1) rest
      (Event.cacheStart i :: Event.cacheWait i :: r.1, r.2)
    else
      ([Event.cacheStart i, Event.cacheWait i], some (errorfConst ("failed to sync cache")))

/-- `Operator.Start(stop)`: ensure the default ClusterIngress (wrapping a
failure as `failed to ensure default cluster ingress: %v`), then start
and sync-wait each secondary cache in order, then hand control to
`o.manager.Start(stop)`.  Returns the trace of external calls, the
returned error, and the (untouched) scheme. -/
def Operator.Start (s : Scheme) (o : Operator) (env : StartEnv) :
    (List Event × Option GoError) × Scheme :=
  let er := ensureTrace env
  match er.2 with
  | some e => ((er.1, some (errorf ("failed to ensure default cluster ingress") e)), s)
  | none =>
    let cr := startCaches env.syncResult 0 o.caches
    match cr.2 with
    | some e => ((er.1 ++ cr.1, some e), s)
    | none => ((er.1 ++ cr.1 ++ [Event.managerStart], env.managerStartErr), s)

/-- The trace `Start` produces when every cache from position `i` on (of
which there are `n`) syncs: per cache, a start immediately followed by
its sync-wait. -/
def phaseTrace : Nat → Nat → List Event
  | _, 0 => []
  | i, n + 1 => Event.cacheStart i :: Event.cacheWait i :: phaseTrace (i + 1) n

theorem charsPrefix_refl (l : List Char) : charsPrefix l l = true := by
  induction l with
  | nil => rfl
  | cons a as ih => simp [charsPrefix, ih]

theorem charsContains_self (l : List Char) : charsContains l l = true := by
  cases l with
  | nil => rfl
  | cons c r => simp [charsContains, charsPrefix_refl]

theorem charsContains_cons (sub s : List Char) (c : Char)
    (h : charsContains sub s = true) : charsContains sub (c :: s) = true := by
  simp [charsContains, h]

theorem charsContains_append_left (a sub s : List Char)
    (h : charsContains sub s = true) : charsContains sub (a ++ s) = true := by
  induction a with
  | nil => simpa using h
  | cons c cs ih => simpa [List.cons_append] using charsContains_cons _ _ c ih

theorem strContains_self (m : String) : strContains m m = true :=
  charsContains_self m.data

theorem strContains_errorf_mono (p : String) (e : GoError) (sub : String)
    (h : strContains e.msg sub = true) : strContains (errorf p e).msg sub = true := by
  show charsContains sub.data ((p ++ ": ") ++ e.msg).data = true
  rw [String.data_append]
  exact charsContains_append_left _ _ _ h

theorem strContains_errorf (p : String) (e : GoError) :
    strContains (errorf p e).msg e.msg = true :=
  strContains_errorf_mono p e e.msg (strContains_self e.msg)

theorem startCaches_mem (f : Nat → Bool) :
    ∀ (cs : List CacheModel) (i : Nat) (e : Event), e ∈ (startCaches f i cs).1 →
    ∃ j, i ≤ j ∧ (e = Event.cacheStart j ∨ e = Event.cacheWait j) := by
  intro cs
  induction cs with
  | nil =>
    intro i e h
    simp [startCaches] at h
  | cons c rest ih =>
    intro i e h
    cases hfi : f i with
    | true =>
      simp [startCaches, hfi] at h
      rcases h with h | h | h
      · exact ⟨i, le_rfl, Or.inl h⟩
      · exact ⟨i, le_rfl, Or.inr h⟩
      · obtain ⟨j, hj, hej⟩ := ih (i + 1) e h
        exact ⟨j, by omega, hej⟩
    | false =>
      simp [startCaches, hfi] at h
      rcases h with h | h
      · exact ⟨i, le_rfl, Or.inl h⟩
      · exact ⟨i, le_rfl, Or.inr h⟩

theorem phaseTrace_mem :
    ∀ (n i : Nat) (e : Event), e ∈ phaseTrace i n →
    ∃ j, i ≤ j ∧ j < i + n ∧ (e = Event.cacheStart j ∨ e = Event.cacheWait j) := by
  intro n
  induction n with
  | zero =>
    intro i e h
    simp [phaseTrace] at h
  | succ n' ih =>
    intro i e h
    simp [phaseTrace] at h
    rcases h with h | h | h
    · exact ⟨i, le_rfl, by omega, Or.inl h⟩
    · exact ⟨i, le_rfl, by omega, Or.inr h⟩
    · obtain ⟨j, h1, h2, h3⟩ := ih (i + 1) e h
      exact ⟨j, by omega, by omega, h3⟩

theorem startCaches_all_true (f : Nat → Bool) :
    ∀ (cs : List CacheModel) (i : Nat), (∀ j, i ≤ j → j < i + cs.length → f j = true) →
    startCaches f i cs = (phaseTrace i cs.length, none) := by
  intro cs
  induction cs with
  | nil =>
    intro i _
    rfl
  | cons c rest ih =>
    intro i h
    have hi : f i = true := h i le_rfl (by simp)
    have hrest := ih (i + 1) (fun j h1 h2 => h j (by omega) (by simp; omega))
    simp [startCaches, hi, hrest, phaseTrace]

theorem startCaches_first_false (f : Nat → Bool) :
    ∀ (cs : List CacheModel) (i k : Nat), k < cs.length → f (i + k) = false →
    (∀ j, i ≤ j → j < i + k → f j = true) →
    startCaches f i cs
      = (phaseTrace i k ++ [Event.cacheStart (i + k), Event.cacheWait (i + k)],
         some (errorfConst ("failed to sync cache"))) := by
  intro cs
  induction cs with
  | nil =>
    intro i k hk
    simp at hk
  | cons c rest ih =>
    intro i k hk hf hall
    cases k with
    | zero =>
      have hi : f i = false := by simpa using hf
      simp [startCaches, hi, phaseTrace]
    | succ k' =>
      have hi : f i = true := hall i le_rfl (by omega)
      have harith : i + 1 + k' = i + (k' + 1) := by omega
      have hrest := ih (i + 1) k' (by simpa using hk)
        (by rw [harith]; exact hf)
        (fun j h1 h2 => hall j (by omega) (by omega))
      rw [harith] at hrest
      simp [startCaches, hi, hrest, phaseTrace]

theorem startCaches_sync_failure (f : Nat → Bool) :
    ∀ (cs : List CacheModel) (i : Nat), (∃ k, k < cs.length ∧ f (i + k) = false) →
    (startCaches f i cs).2 = some (errorfConst ("failed to sync cache")) := by
  intro cs
  induction cs with
  | nil =>
    intro i h
    obtain ⟨k, hk, _⟩ := h
    simp at hk
  | cons c rest ih =>
    intro i h
    obtain ⟨k, hk, hf⟩ := h
    cases hfi : f i with
    | false => simp [startCaches, hfi]
    | true =>
      have hnext : ∃ k', k' < rest.length ∧ f (i + 1 + k') = false := by
        cases k with
        | zero =>
          rw [Nat.add_zero] at hf
          rw [hfi] at hf
          exact absurd hf (by simp)
        | succ k' =>
          exact ⟨k', by simpa using hk, by rw [show i + 1 + k' = i + (k' + 1) by omega]; exact hf⟩
      simp [startCaches, hfi, ih (i + 1) hnext]

/-- C1: if any cache's `WaitForCacheSync` returns false, `Operator.Start`
returns the error `failed to sync cache` and `manager.Start` (the
dispatch loop) is never invoked — even when every other cache syncs
successfully (the hypotheses allow all other positions of `f` to be
true). -/
theorem start_sync_failure_blocks_dispatch (s : Scheme) (o : Operator)
    (ci : ClusterIngress) (cr me : Option GoError) (f : Nat → Bool)
    (hens : ensureCreateOutcome cr = none)
    (hfail : ∃ k, k < o.caches.length ∧ f k = false) :
    (Operator.Start s o ⟨Except.ok ci, cr, f, me⟩).1.2
        = some (errorfConst ("failed to sync cache"))
    ∧ Event.managerStart ∉ (Operator.Start s o ⟨Except.ok ci, cr, f, me⟩).1.1 := by
  have hsync : (startCaches f 0 o.caches).2 = some (errorfConst ("failed to sync cache")) :=
    startCaches_sync_failure f o.caches 0 (by simpa using hfail)
  constructor
  · simp [Operator.Start, ensureTrace, hens, hsync]
  · simp only [Operator.Start, ensureTrace, hens, hsync]
    simp only [List.cons_append, List.nil_append, List.mem_cons]
    rintro (h | h)
    · exact absurd h (by simp)
    · obtain ⟨j, _, hj⟩ := startCaches_mem f o.caches 0 Event.managerStart h
      rcases hj with hj | hj <;> simp at hj

theorem start_sync_failure_blocks_dispatch_witness :
    (Operator.Start [] { caches := [{ namespaceScope := "a" }], watches := [] }
        ⟨Except.ok { ns := "openshift-ingress", name := "default" },
         none, fun _ => false, none⟩).1.2
        = some (errorfConst ("failed to sync cache"))
    ∧ Event.managerStart ∉
        (Operator.Start [] { caches := [{ namespaceScope := "a" }], watches := [] }
          ⟨Except.ok { ns := "openshift-ingress", name := "default" },
           none, fun _ => false, none⟩).1.1 :=
  start_sync_failure_blocks_dispatch [] _ _ none none (fun _ => false) rfl
    ⟨0, by simp, rfl⟩

/-- C4 (amended): the actual phase structure of `Operator.Start`:
ensure-default first, then per cache in registration order a start
immediately followed by its sync-wait (start and wait are interleaved
per cache, not phase-separated), and `manager.Start` only after every
cache has been started and synced. -/
theorem start_phase_interleaved (s : Scheme) (o : Operator) (ci : ClusterIngress)
    (cr me : Option GoError) (f : Nat → Bool)
    (hens : ensureCreateOutcome cr = none)
    (hall : ∀ j, j < o.caches.length → f j = true) :
    Operator.Start s o ⟨Except.ok ci, cr, f, me⟩
      = ((Event.createDefault :: (phaseTrace 0 o.caches.length ++ [Event.managerStart]),
          me), s) := by
  have hsync := startCaches_all_true f o.caches 0 (fun j _ h2 => hall j (by omega))
  simp [Operator.Start, ensureTrace, hens, hsync]

theorem start_phase_interleaved_witness :
    Operator.Start [] { caches := [{ namespaceScope := "openshift-ingress" }], watches := [] }
        ⟨Except.ok { ns := "openshift-ingress", name := "default" },
         none, fun _ => true, none⟩
      = ((Event.createDefault :: (phaseTrace 0 1 ++ [Event.managerStart]), none), []) :=
  start_phase_interleaved [] _ _ none none (fun _ => true) rfl (fun _ _ => rfl)

/-- C4 (counterexample): with two caches that both sync, the trace of
`Operator.Start` has `cacheWait 0` strictly before `cacheStart 1`, so it
is false that `WaitForCacheSync` is only called after `Start` has been
called on every cache: the two phases are interleaved per cache. -/
theorem start_not_phase_separated :
    (Operator.Start []
        { caches := [{ namespaceScope := "a" }, { namespaceScope := "b" }], watches := [] }
        ⟨Except.ok { ns := "openshift-ingress", name := "default" },
         none, fun _ => true, none⟩).1.1
      = [Event.createDefault, Event.cacheStart 0, Event.cacheWait 0,
         Event.cacheStart 1, Event.cacheWait 1, Event.managerStart]
    ∧ ∃ l1 l2 l3,
        (Operator.Start []
          { caches := [{ namespaceScope := "a" }, { namespaceScope := "b" }], watches := [] }
          ⟨Except.ok { ns := "openshift-ingress", name := "default" },
           none, fun _ => true, none⟩).1.1
        = l1 ++ Event.cacheWait 0 :: (l2 ++ Event.cacheStart 1 :: l3) :=
  ⟨rfl, [Event.createDefault, Event.cacheStart 0], [],
    [Event.cacheWait 1, Event.managerStart], rfl⟩

/-- C10: cache start and sync-wait are interleaved per entry, so a sync
failure at position `k` truncates the sequence: `Operator.Start` returns
`failed to sync cache` right there, and no cache after position `k` is
ever started or waited on. -/
theorem start_sync_failure_truncates (s : Scheme) (o : Operator)
    (ci : ClusterIngress) (cr me : Option GoError) (f : Nat → Bool) (k : Nat)
    (hens : ensureCreateOutcome cr = none)
    (hk : k < o.caches.length) (hfk : f k = false)
    (hpre : ∀ j, j < k → f j = true) :
    (Operator.Start s o ⟨Except.ok ci, cr, f, me⟩).1
      = (Event.createDefault ::
          (phaseTrace 0 k ++ [Event.cacheStart k, Event.cacheWait k]),
         some (errorfConst ("failed to sync cache")))
    ∧ ∀ j, k < j →
        Event.cacheStart j ∉ (Operator.Start s o ⟨Except.ok ci, cr, f, me⟩).1.1
        ∧ Event.cacheWait j ∉ (Operator.Start s o ⟨Except.ok ci, cr, f, me⟩).1.1 := by
  have hfirst := startCaches_first_false f o.caches 0 k hk
    (by simpa using hfk) (fun j _ h2 => hpre j (by omega))
  rw [Nat.zero_add] at hfirst
  have htr : (Operator.Start s o ⟨Except.ok ci, cr, f, me⟩).1
      = (Event.createDefault ::
          (phaseTrace 0 k ++ [Event.cacheStart k, Event.cacheWait k]),
         some (errorfConst ("failed to sync cache"))) := by
    simp [Operator.Start, ensureTrace, hens, hfirst]
  refine ⟨htr, fun j hj => ⟨?_, ?_⟩⟩
  · intro hmem
    rw [show (Operator.Start s o ⟨Except.ok ci, cr, f, me⟩).1.1
        = (Operator.Start s o ⟨Except.ok ci, cr, f, me⟩).1.1 from rfl,
      congrArg Prod.fst htr] at hmem
    simp only [List.mem_cons, List.mem_append] at hmem
    rcases hmem with h | h | h
    · exact absurd h (by simp)
    · obtain ⟨j', _, hj2, hj3⟩ := phaseTrace_mem k 0 _ h
      rcases hj3 with h3 | h3 <;> simp at h3 <;> omega
    · simp at h
      omega
  · intro hmem
    rw [congrArg Prod.fst htr] at hmem
    simp only [List.mem_cons, List.mem_append] at hmem
    rcases hmem with h | h | h
    · exact absurd h (by simp)
    · obtain ⟨j', _, hj2, hj3⟩ := phaseTrace_mem k 0 _ h
      rcases hj3 with h3 | h3 <;> simp at h3 <;> omega
    · simp at h
      omega

theorem start_sync_failure_truncates_witness :
    (Operator.Start []
        { caches := [{ namespaceScope := "a" }, { namespaceScope := "b" }], watches := [] }
        ⟨Except.ok { ns := "openshift-ingress", name := "default" },
         none, fun _ => false, none⟩).1
      = (Event.createDefault ::
          (phaseTrace 0 0 ++ [Event.cacheStart 0, Event.cacheWait 0]),
         some (errorfConst ("failed to sync cache"))) :=
  (start_sync_failure_truncates []
    { caches := [{ namespaceScope := "a" }, { namespaceScope := "b" }], watches := [] }
    { ns := "openshift-ingress", name := "default" }
    none none (fun _ => false) 0 rfl (by simp) rfl (fun j hj => absurd hj (by omega))).1

/-- C2: the `Create` outcome handling of `ensureDefaultClusterIngress`
treats success and `AlreadyExists` as nil, every other error as fatal;
and when ensure fails (a non-`AlreadyExists` create error, or a manifest
factory error), `Operator.Start` aborts with the wrapped
`failed to ensure default cluster ingress: %v` error before starting any
cache or the dispatch loop (the trace stops at the ensure step). -/
theorem ensure_error_handling (s : Scheme) (o : Operator) (ci : ClusterIngress)
    (e e0 : GoError) (cr me : Option GoError) (f : Nat → Bool) :
    ensureCreateOutcome none = none
    ∧ (e.isAlreadyExists = true → ensureCreateOutcome (some e) = none)
    ∧ (e.isAlreadyExists = false → ensureCreateOutcome (some e) = some e)
    ∧ (e.isAlreadyExists = false →
        Operator.Start s o ⟨Except.ok ci, some e, f, me⟩
          = (([Event.createDefault],
              some (errorf ("failed to ensure default cluster ingress") e)), s))
    ∧ Operator.Start s o ⟨Except.error e0, cr, f, me⟩
        = (([], some (errorf ("failed to ensure default cluster ingress") e0)), s) := by
  refine ⟨rfl, fun h => ?_, fun h => ?_, fun h => ?_, ?_⟩
  · simp [ensureCreateOutcome, h]
  · simp [ensureCreateOutcome, h]
  · simp [Operator.Start, ensureTrace, ensureCreateOutcome, h]
  · simp [Operator.Start, ensureTrace]

theorem ensure_error_handling_witness :
    ensureCreateOutcome (some { msg := "conflict", isAlreadyExists := true }) = none
    ∧ ensureCreateOutcome (some { msg := "boom", isAlreadyExists := false })
        = some { msg := "boom", isAlreadyExists := false }
    ∧ Operator.Start [] { caches := [], watches := [] }
        ⟨Except.ok { ns := "openshift-ingress", name := "default" },
         some { msg := "boom", isAlreadyExists := false }, fun _ => true, none⟩
        = (([Event.createDefault],
            some (errorf ("failed to ensure default cluster ingress")
              { msg := "boom", isAlreadyExists := false })), []) :=
  ⟨(ensure_error_handling [] { caches := [], watches := [] }
      { ns := "openshift-ingress", name := "default" }
      { msg := "conflict", isAlreadyExists := true }
      { msg := "z", isAlreadyExists := false } none none (fun _ => true)).2.1 rfl,
   (ensure_error_handling [] { caches := [], watches := [] }
      { ns := "openshift-ingress", name := "default" }
      { msg := "boom", isAlreadyExists := false }
      { msg := "z", isAlreadyExists := false } none none (fun _ => true)).2.2.1 rfl,
   (ensure_error_handling [] { caches := [], watches := [] }
      { ns := "openshift-ingress", name := "default" }
      { msg := "boom", isAlreadyExists := false }
      { msg := "z", isAlreadyExists := false } none none (fun _ => true)).2.2.2.1 rfl⟩

/-- C3: the ensure-default protocol is idempotent: from every store
state, running `ensureDefaultClusterIngress` twice leaves exactly one
default object in the store, the second invocation returns nil, observes
`AlreadyExists` from the store, and changes nothing (the store after the
second run equals the store after the first). -/
theorem ensure_idempotent (st : Store) (ci : ClusterIngress) :
    countDefault (ensureDefaultClusterIngress (Except.ok ci)
        (ensureDefaultClusterIngress (Except.ok ci) st).1).1 = 1
    ∧ (ensureDefaultClusterIngress (Except.ok ci)
        (ensureDefaultClusterIngress (Except.ok ci) st).1).2 = none
    ∧ (ensureDefaultClusterIngress (Except.ok ci)
        (ensureDefaultClusterIngress (Except.ok ci) st).1).1
        = (ensureDefaultClusterIngress (Except.ok ci) st).1
    ∧ (storeCreate (ensureDefaultClusterIngress (Except.ok ci) st).1).2
        = some { msg := "already exists", isAlreadyExists := true } := by
  cases st with
  | mk b => cases b <;> exact ⟨rfl, rfl, rfl, rfl⟩

theorem startCaches_mem_shape (f : Nat → Bool) (cs : List CacheModel) (i : Nat)
    (e : Event) (h : e ∈ (startCaches f i cs).1) :
    ∃ j, e = Event.cacheStart j ∨ e = Event.cacheWait j := by
  obtain ⟨j, _, hj⟩ := startCaches_mem f cs i e h
  exact ⟨j, hj⟩

theorem startCaches_count_createDefault (f : Nat → Bool) (cs : List CacheModel)
    (i : Nat) : (startCaches f i cs).1.count Event.createDefault = 0 := by
  rw [List.count_eq_zero]
  intro h
  obtain ⟨j, hj | hj⟩ := startCaches_mem_shape f cs i _ h <;> simp at hj

theorem startCaches_not_mem_update (f : Nat → Bool) (cs : List CacheModel)
    (i : Nat) : Event.updateDefault ∉ (startCaches f i cs).1 := by
  intro h
  obtain ⟨j, hj | hj⟩ := startCaches_mem_shape f cs i _ h <;> simp at hj

theorem startCaches_not_mem_delete (f : Nat → Bool) (cs : List CacheModel)
    (i : Nat) : Event.deleteDefault ∉ (startCaches f i cs).1 := by
  intro h
  obtain ⟨j, hj | hj⟩ := startCaches_mem_shape f cs i _ h <;> simp at hj

/-- C8 (amended): per execution of `Operator.Start` at most one `Create`
of the default ClusterIngress is issued — exactly one whenever the
manifest factory succeeds — and no `Update` or `Delete` of it is ever
issued. -/
theorem start_create_frame (s : Scheme) (o : Operator) (env : StartEnv) :
    (Operator.Start s o env).1.1.count Event.createDefault ≤ 1
    ∧ (∀ ci, env.manifestResult = Except.ok ci →
        (Operator.Start s o env).1.1.count Event.createDefault = 1)
    ∧ Event.updateDefault ∉ (Operator.Start s o env).1.1
    ∧ Event.deleteDefault ∉ (Operator.Start s o env).1.1 := by
  have hcount : (Operator.Start s o env).1.1.count Event.createDefault
      = (ensureTrace env).1.count Event.createDefault
      ∨ ((Operator.Start s o env).1.1.count Event.createDefault
          = (ensureTrace env).1.count Event.createDefault
            + (startCaches env.syncResult 0 o.caches).1.count Event.createDefault) := by
    cases he : (ensureTrace env).2 with
    | some e => left; simp [Operator.Start, he]
    | none =>
      right
      cases hc : (startCaches env.syncResult 0 o.caches).2 with
      | some e => simp [Operator.Start, he, hc, List.count_append]
      | none => simp [Operator.Start, he, hc, List.count_append]
  have hmem : ∀ e : Event, e ∈ (Operator.Start s o env).1.1 →
      e ∈ (ensureTrace env).1 ∨ e ∈ (startCaches env.syncResult 0 o.caches).1
        ∨ e = Event.managerStart := by
    intro e hm
    cases he : (ensureTrace env).2 with
    | some e0 =>
      simp [Operator.Start, he] at hm
      exact Or.inl hm
    | none =>
      cases hc : (startCaches env.syncResult 0 o.caches).2 with
      | some e0 =>
        simp [Operator.Start, he, hc] at hm
        rcases hm with h | h
        · exact Or.inl h
        · exact Or.inr (Or.inl h)
      | none =>
        simp [Operator.Start, he, hc] at hm
        rcases hm with h | h | h
        · exact Or.inl h
        · exact Or.inr (Or.inl h)
        · exact Or.inr (Or.inr h)
  have hens_count : (ensureTrace env).1.count Event.createDefault ≤ 1 := by
    cases hm : env.manifestResult <;> simp [ensureTrace, hm]
  refine ⟨?_, ?_, ?_, ?_⟩
  · rcases hcount with h | h
    · rw [h]
      exact hens_count
    · rw [h, startCaches_count_createDefault]
      omega
  · intro ci hci
    have h1 : (ensureTrace env).1.count Event.createDefault = 1 := by
      simp [ensureTrace, hci]
    rcases hcount with h | h
    · rw [h, h1]
    · rw [h, startCaches_count_createDefault, h1]
  · intro hm
    rcases hmem Event.updateDefault hm with h | h | h
    · cases hmf : env.manifestResult <;> simp [ensureTrace, hmf] at h
    · exact startCaches_not_mem_update _ _ _ h
    · simp at h
  · intro hm
    rcases hmem Event.deleteDefault hm with h | h | h
    · cases hmf : env.manifestResult <;> simp [ensureTrace, hmf] at h
    · exact startCaches_not_mem_delete _ _ _ h
    · simp at h

theorem start_create_frame_witness :
    (Operator.Start [] { caches := [], watches := [] }
        ⟨Except.ok { ns := "openshift-ingress", name := "default" },
         none, fun _ => true, none⟩).1.1.count Event.createDefault = 1 :=
  (start_create_frame [] { caches := [], watches := [] }
    ⟨Except.ok { ns := "openshift-ingress", name := "default" },
     none, fun _ => true, none⟩).2.1
    { ns := "openshift-ingress", name := "default" } rfl

/-- C8 (counterexample): an execution of `Operator.Start` in which the
manifest factory fails issues no `Create` call at all, refuting
"exactly one Create call per execution of `Operator.Start`". -/
theorem start_create_zero_on_manifest_failure :
    (Operator.Start [] { caches := [], watches := [] }
        ⟨Except.error { msg := "boom", isAlreadyExists := false },
         none, fun _ => true, none⟩).1.1.count Event.createDefault = 0
    ∧ (Operator.Start [] { caches := [], watches := [] }
        ⟨Except.error { msg := "boom", isAlreadyExists := false },
         none, fun _ => true, none⟩).1.2
      = some (errorf ("failed to ensure default cluster ingress")
          { msg := "boom", isAlreadyExists := false }) :=
  ⟨rfl, rfl⟩

/-- A `NewEnv` in which every external call succeeds. -/
def newEnvOk : NewEnv :=
  { clientEnv := { discoveryErr := none, clientNewErr := none },
    managerNewErr := none, controllerNewErr := none,
    mapperErr := none, cacheNewErr := none,
    informerErr := fun _ => none }

/-- C6: if the discovery REST-mapper resolution fails, `Client` returns
no client and the constant discovery error, and `New` — whose first step
is `Client` — likewise returns no `Operator` and a wrapped error, so no
later construction step runs. -/
theorem client_requires_discovery (s : Scheme) (e : GoError) (nenv : NewEnv)
    (hd : nenv.clientEnv.discoveryErr = some e) :
    (Client s nenv.clientEnv).1
        = Except.error (errorfConst ("failed to get API Group-Resources"))
    ∧ (New s nenv).1
        = Except.error (errorf ("could\x27t create kube client")
            (errorfConst ("failed to get API Group-Resources"))) := by
  have hc : (Client s nenv.clientEnv).1
      = Except.error (errorfConst ("failed to get API Group-Resources")) := by
    simp [Client, hd]
  exact ⟨hc, by simp [New, hc]⟩

theorem client_requires_discovery_witness :
    (Client [] { discoveryErr := some { msg := "boom", isAlreadyExists := false },
                 clientNewErr := none } : Except GoError Unit × Scheme).1
        = Except.error (errorfConst ("failed to get API Group-Resources"))
    ∧ (New [] { newEnvOk with
          clientEnv := { discoveryErr := some { msg := "boom", isAlreadyExists := false },
                         clientNewErr := none } }).1
        = Except.error (errorf ("could\x27t create kube client")
            (errorfConst ("failed to get API Group-Resources"))) :=
  client_requires_discovery [] { msg := "boom", isAlreadyExists := false }
    { newEnvOk with
      clientEnv := { discoveryErr := some { msg := "boom", isAlreadyExists := false },
                     clientNewErr := none } } rfl

theorem new_ok_shape (s : Scheme) (env : NewEnv) (op : Operator)
    (h : (New s env).1 = Except.ok op) :
    op.caches = [{ namespaceScope := "openshift-ingress" }]
    ∧ op.watches = [WatchKind.deployment, WatchKind.service] := by
  cases hd : (Client s env.clientEnv).1 with
  | error e => simp [New, hd] at h
  | ok u =>
    cases hm : env.managerNewErr with
    | some e => simp [New, hd, hm] at h
    | none =>
      cases hct : env.controllerNewErr with
      | some e => simp [New, hd, hm, hct] at h
      | none =>
        cases hmp : env.mapperErr with
        | some e => simp [New, hd, hm, hct, hmp] at h
        | none =>
          cases hcn : env.cacheNewErr with
          | some e => simp [New, hd, hm, hct, hmp, hcn] at h
          | none =>
            cases hf1 : env.informerErr WatchKind.deployment with
            | some e =>
              simp [New, hd, hm, hct, hmp, hcn, registerWatches, hf1] at h
            | none =>
              cases hf2 : env.informerErr WatchKind.service with
              | some e =>
                simp [New, hd, hm, hct, hmp, hcn, registerWatches, hf1, hf2] at h
              | none =>
                simp [New, hd, hm, hct, hmp, hcn, registerWatches, hf1, hf2] at h
                rw [← h]
                exact ⟨rfl, rfl⟩

/-- C9: `New` either succeeds with an `Operator` whose caches list is
exactly the one "openshift-ingress"-scoped cache and whose registered
watches are exactly the two kinds Deployment and Service, or it fails
returning no `Operator` together with an error. -/
theorem new_shape (s : Scheme) (env : NewEnv) :
    (∃ op, (New s env).1 = Except.ok op
      ∧ op.caches = [{ namespaceScope := "openshift-ingress" }]
      ∧ op.watches = [WatchKind.deployment, WatchKind.service])
    ∨ (∃ e, (New s env).1 = Except.error e) := by
  cases hne : (New s env).1 with
  | error e => exact Or.inr ⟨e, rfl⟩
  | ok op =>
    obtain ⟨h1, h2⟩ := new_ok_shape s env op hne
    exact Or.inl ⟨op, rfl, h1, h2⟩

/-- C7: the type registry is built once by `init` — starting from the
kubernetes base scheme and adding the operator's API group and the
OpenShift config group — a registration failure is fatal (the `panic` is
modelled as `Except.error`, and `init` succeeds only when both
registrations succeed); and no operation (`Client`, `New`,
`Operator.Start`) changes the scheme: each returns it unchanged. -/
theorem scheme_init_and_immutable (ae ie : Option GoError) (e : GoError)
    (s : Scheme) (cenv : ClientEnv) (nenv : NewEnv) (o : Operator)
    (senv : StartEnv) :
    initScheme none none
        = Except.ok [ApiGroupRegistration.kubernetesScheme,
            ApiGroupRegistration.ingressOperatorApis,
            ApiGroupRegistration.openshiftConfigV1]
    ∧ initScheme (some e) ie = Except.error e
    ∧ initScheme none (some e) = Except.error e
    ∧ ((∃ sc, initScheme ae ie = Except.ok sc) → ae = none ∧ ie = none)
    ∧ (Client s cenv).2 = s
    ∧ (New s nenv).2 = s
    ∧ (Operator.Start s o senv).2 = s := by
  refine ⟨rfl, rfl, rfl, ?_, ?_, ?_, ?_⟩
  · rintro ⟨sc, hsc⟩
    cases ae with
    | some a => simp [initScheme] at hsc
    | none =>
      cases ie with
      | some b => simp [initScheme] at hsc
      | none => exact ⟨rfl, rfl⟩
  · rcases cenv with ⟨d, c⟩
    cases d
    · cases c <;> rfl
    · rfl
  · simp only [New]
    split
    · rfl
    · split
      · rfl
      · split
        · rfl
        · split
          · rfl
          · split
            · rfl
            · split <;> rfl
  · simp only [Operator.Start]
    split
    · rfl
    · split <;> rfl

theorem scheme_init_and_immutable_witness :
    (none : Option GoError) = none ∧ (none : Option GoError) = none :=
  (scheme_init_and_immutable none none { msg := "boom", isAlreadyExists := false }
    [] { discoveryErr := none, clientNewErr := none } newEnvOk
    { caches := [], watches := [] }
    ⟨Except.ok { ns := "openshift-ingress", name := "default" },
     none, fun _ => true, none⟩).2.2.2.1
    ⟨[ApiGroupRegistration.kubernetesScheme,
      ApiGroupRegistration.ingressOperatorApis,
      ApiGroupRegistration.openshiftConfigV1], rfl⟩

/-- C5 (counterexample): a discovery REST-mapper failure with underlying
message `boom` makes `Client` return the fixed error
`failed to get API Group-Resources`, whose message does not contain the
causing error's text — so not every startup-path error is wrapped with
its cause. -/
theorem discovery_error_not_wrapped :
    (Client [] { discoveryErr := some { msg := "boom", isAlreadyExists := false },
                 clientNewErr := none } : Except GoError Unit × Scheme).1
      = Except.error (errorfConst ("failed to get API Group-Resources"))
    ∧ strContains (errorfConst ("failed to get API Group-Resources")).msg ("boom")
        = false :=
  ⟨rfl, by decide⟩

/-- C5 (amended): every startup-path failure of `New`, `Client` or
`Operator.Start` is returned as a context-annotated message containing
the causing error's text — except the discovery REST-mapper failure,
which yields the fixed message `failed to get API Group-Resources` that
omits its cause; `manager.Start`'s own error is returned unchanged, and
the sync failure has no underlying error object to include. -/
theorem startup_errors_wrapped (e : GoError) (s : Scheme) (o : Operator)
    (ci : ClusterIngress) (me : Option GoError) :
    ((Client s { discoveryErr := none, clientNewErr := some e }).1
        = Except.error (errorf ("failed to create kube client") e)
      ∧ strContains (errorf ("failed to create kube client") e).msg e.msg = true)
    ∧ ((New s { newEnvOk with
          clientEnv := { discoveryErr := none, clientNewErr := some e } }).1
        = Except.error (errorf ("could\x27t create kube client")
            (errorf ("failed to create kube client") e))
      ∧ strContains (errorf ("could\x27t create kube client")
            (errorf ("failed to create kube client") e)).msg e.msg = true)
    ∧ ((New s { newEnvOk with managerNewErr := some e }).1
        = Except.error (errorf ("failed to create operator manager") e)
      ∧ strContains (errorf ("failed to create operator manager") e).msg e.msg = true)
    ∧ ((New s { newEnvOk with controllerNewErr := some e }).1
        = Except.error (errorf ("failed to create operator controller") e)
      ∧ strContains (errorf ("failed to create operator controller") e).msg e.msg = true)
    ∧ ((New s { newEnvOk with cacheNewErr := some e }).1
        = Except.error (errorf ("failed to create openshift-ingress cache") e)
      ∧ strContains (errorf ("failed to create openshift-ingress cache") e).msg e.msg = true)
    ∧ ((New s { newEnvOk with
          informerErr := fun k => match k with
            | WatchKind.deployment => some e
            | WatchKind.service => none }).1
        = Except.error (errorf ("failed to create informer for Deployment") e)
      ∧ strContains (errorf ("failed to create informer for Deployment") e).msg e.msg = true)
    ∧ ((New s { newEnvOk with
          informerErr := fun k => match k with
            | WatchKind.deployment => none
            | WatchKind.service => some e }).1
        = Except.error (errorf ("failed to create informer for Service") e)
      ∧ strContains (errorf ("failed to create informer for Service") e).msg e.msg = true)
    ∧ ((Operator.Start s o ⟨Except.error e, none, fun _ => true, me⟩).1.2
        = some (errorf ("failed to ensure default cluster ingress") e)
      ∧ strContains (errorf ("failed to ensure default cluster ingress") e).msg e.msg
          = true)
    ∧ ((Operator.Start s o
          ⟨Except.ok ci, some { msg := e.msg, isAlreadyExists := false },
           fun _ => true, me⟩).1.2
        = some (errorf ("failed to ensure default cluster ingress")
            { msg := e.msg, isAlreadyExists := false })
      ∧ strContains (errorf ("failed to ensure default cluster ingress")
            { msg := e.msg, isAlreadyExists := false }).msg e.msg = true)
    ∧ (Operator.Start s o ⟨Except.ok ci, none, fun _ => true, some e⟩).1.2
        = some e := by
  have hall := startCaches_all_true (fun _ => true) o.caches 0 (fun _ _ _ => rfl)
  refine ⟨⟨?_, strContains_errorf _ _⟩,
    ⟨?_, strContains_errorf_mono _ _ _ (strContains_errorf _ _)⟩,
    ⟨?_, strContains_errorf _ _⟩, ⟨?_, strContains_errorf _ _⟩,
    ⟨?_, strContains_errorf _ _⟩, ⟨?_, strContains_errorf _ _⟩,
    ⟨?_, strContains_errorf _ _⟩, ⟨?_, strContains_errorf _ _⟩,
    ⟨?_, ?_⟩, ?_⟩
  · simp [Client]
  · simp [New, Client, newEnvOk]
  · simp [New, Client, newEnvOk]
  · simp [New, Client, newEnvOk]
  · simp [New, Client, newEnvOk]
  · simp [New, Client, newEnvOk, registerWatches]
    congr 1
  · simp [New, Client, newEnvOk, registerWatches]
    congr 1
  · simp [Operator.Start, ensureTrace]
  · simp [Operator.Start, ensureTrace, ensureCreateOutcome]
  · exact strContains_errorf _ { msg := e.msg, isAlreadyExists := false }
  · simp [Operator.Start, ensureTrace, ensureCreateOutcome, hall]

theorem ensure_idempotent_witness :
    (ensureDefaultClusterIngress
        (Except.ok { ns := "openshift-ingress", name := "default" })
        (ensureDefaultClusterIngress
          (Except.ok { ns := "openshift-ingress", name := "default" })
          { hasDefault := false }).1).2 = none :=
  (ensure_idempotent { hasDefault := false }
    { ns := "openshift-ingress", name := "default" }).2.1

theorem startup_errors_wrapped_witness :
    (Client [] { discoveryErr := none,
                 clientNewErr := some { msg := "boom", isAlreadyExists := false } }
        : Except GoError Unit × Scheme).1
      = Except.error (errorf ("failed to create kube client")
          { msg := "boom", isAlreadyExists := false })
    ∧ strContains (errorf ("failed to create kube client")
          { msg := "boom", isAlreadyExists := false }).msg ("boom") = true :=
  (startup_errors_wrapped { msg := "boom", isAlreadyExists := false } []
    { caches := [], watches := [] }
    { ns := "openshift-ingress", name := "default" } none).1

theorem new_shape_witness :
    (∃ op, (New [] newEnvOk).1 = Except.ok op
      ∧ op.caches = [{ namespaceScope := "openshift-ingress" }]
      ∧ op.watches = [WatchKind.deployment, WatchKind.service])
    ∨ (∃ e, (New [] newEnvOk).1 = Except.error e) :=
  new_shape [] newEnvOk
